import Mathlib

/-!
Verification model of the sdformat frame-semantics subsystem.

The repository snapshot ships the integration test `src/test/integration/frame.cc`
and `src/include/sdf/Console.hh`; the DOM/graph implementation itself
(`Element`, `Frame`, `Model`, `World`, `Root`, the frame graphs) is not part of
the snapshot, so those components are modelled here from the specification
(`spec.md`), with their observable behavior pinned wherever the integration
test exercises them.  Pose literals use exact rational arithmetic.
-/

/-- Pose literal as stored at the document level: the six numbers
`x y z roll pitch yaw` of an ignition `Pose3d` constructor, kept raw
(every document in the repository carries zero rotation, so componentwise
equality matches `Pose3d` equality on all values compared by the tests). -/
structure RawPose where
  x : ℚ
  y : ℚ
  z : ℚ
  roll : ℚ
  pitch : ℚ
  yaw : ℚ
deriving DecidableEq

/-- Identity pose `(0,0,0,0,0,0)`. -/
def RawPose.identity : RawPose := ⟨0, 0, 0, 0, 0, 0⟩

/-- Error taxonomy of spec section 7. -/
inductive SdfError where
  | DuplicateNameError (name : String)
  | DanglingReferenceError (source target : String)
  | CycleError (source target : String)
  | UnreachableTargetError (fromName toName : String)
  | MalformedPoseLiteralError (text : String)
deriving DecidableEq

/-- Splits a character list into maximal whitespace-free tokens, carrying the
(reversed) characters of the token currently being read. -/
def tokenizeAux : List Char → List Char → List (List Char)
  | [], acc => if acc.isEmpty then [] else [acc.reverse]
  | c :: cs, acc =>
    if c.isWhitespace then
      if acc.isEmpty then tokenizeAux cs [] else acc.reverse :: tokenizeAux cs []
    else tokenizeAux cs (c :: acc)

/-- Value of a decimal digit character. -/
def digitVal (c : Char) : Option Nat :=
  if '0' ≤ c ∧ c ≤ '9' then some (c.toNat - '0'.toNat) else none

/-- Decimal value of a digit string, accumulator style. -/
def parseNatAux : List Char → Nat → Option Nat
  | [], acc => some acc
  | c :: cs, acc =>
    match digitVal c with
    | some d => parseNatAux cs (acc * 10 + d)
    | none => none

/-- Numeric token of a pose literal: an optionally negated decimal integer
(every pose literal appearing in the repository's documents is a
whitespace-separated list of such numbers). -/
def parseNum : List Char → Option ℚ
  | [] => none
  | '-' :: cs =>
    if cs.isEmpty then none
    else (parseNatAux cs 0).map (fun n => -(n : ℚ))
  | cs => (parseNatAux cs 0).map (fun n => (n : ℚ))

/-- Modelled from the spec: the external pose-literal parser
`ParsePose(text) -> pose or error` (spec section 6), accepting six
whitespace-separated numbers with empty/absent input meaning the identity
pose; anything else is a `MalformedPoseLiteralError`. -/
def ParsePose (s : String) : Except SdfError RawPose :=
  let toks := tokenizeAux s.data []
  if toks.isEmpty then .ok RawPose.identity
  else
    match toks.mapM parseNum with
    | some [a, b, c, d, e, f] => .ok ⟨a, b, c, d, e, f⟩
    | _ => .error (.MalformedPoseLiteralError s)

/-- Modelled from the spec: the element-tree collaborator (spec section 6), a
read-only tree of named elements exposing attribute values by key as strings
and child elements in document order.  `text` holds the element's literal
content (used by pose elements). -/
inductive Element where
  | mk (tag : String) (attrs : List (String × String)) (text : String)
       (children : List Element)

/-- Tag of an element. -/
def Element.tag : Element → String
  | .mk t _ _ _ => t

/-- Attribute list of an element. -/
def Element.attrs : Element → List (String × String)
  | .mk _ a _ _ => a

/-- Literal text content of an element. -/
def Element.text : Element → String
  | .mk _ _ x _ => x

/-- Child elements in document order. -/
def Element.children : Element → List Element
  | .mk _ _ _ c => c

/-- Modelled from the spec: schema-default attributes of an element created on
demand.  A `pose` element defaults its `relative_to` attribute to the empty
string; every other element defaults its `name` attribute to the empty string
(behavior pinned by the `Frame.NoFrame` and `Frame.FrameDefaultPose` tests). -/
def defaultAttrs (tag : String) : List (String × String) :=
  if tag = "pose" then [("relative_to", "")] else [("name", "")]

/-- Modelled from the spec: the default-constructed element `GetElement`
returns when the requested child is absent: schema-default attributes, empty
text (hence identity pose), no children. -/
def defaultElement (tag : String) : Element :=
  .mk tag (defaultAttrs tag) "" []

/-- Attribute lookup; an absent attribute reads as the empty string
(the convention of spec section 4.6: empty means unspecified). -/
def Element.GetAttr (e : Element) (key : String) : String :=
  match e.attrs.find? (fun a => a.1 == key) with
  | some a => a.2
  | none => ""

/-- Whether the element carries the attribute. -/
def Element.HasAttribute (e : Element) (key : String) : Bool :=
  (e.attrs.find? (fun a => a.1 == key)).isSome

/-- Whether a child element with the given tag is present. -/
def Element.HasElement (e : Element) (tag : String) : Bool :=
  (e.children.find? (fun c => c.tag == tag)).isSome

/-- First child element with the given tag; when absent, a usable
default-constructed element is returned (never null), as pinned by the
`Frame.NoFrame` test. -/
def Element.GetElement (e : Element) (tag : String) : Element :=
  match e.children.find? (fun c => c.tag == tag) with
  | some c => c
  | none => defaultElement tag

/-- All child elements with the given tag, in document order. -/
def Element.GetElements (e : Element) (tag : String) : List Element :=
  e.children.filter (fun c => c.tag == tag)

/-- Pose value read from a pose element's text; absent or empty text means the
identity pose (spec section 6). -/
def Element.GetPose (e : Element) : RawPose :=
  match ParsePose e.text with
  | .ok p => p
  | .error _ => RawPose.identity

example : (Element.mk "pose" [] "1 1 0 0 0 0" []).GetPose = ⟨1, 1, 0, 0, 0, 0⟩ := by decide
example : (Element.mk "pose" [] "" []).GetPose = RawPose.identity := by decide
example : (Element.mk "pose" [] "5 -2 1 0 0 0" []).GetPose = ⟨5, -2, 1, 0, 0, 0⟩ := by decide

/-- Modelled from the spec: the read-only `sdf::Frame` facade (spec section
4.6).  `AttachedTo()` and `PoseRelativeTo()` are the raw one-hop strings
stored at load time, exactly as declared in the document (behavior pinned by
the `DOMFrame.LoadModelFramesAttachedTo` and related tests). -/
structure Frame where
  name : String
  attachedTo : String
  poseRelativeTo : String
  rawPose : RawPose

/-- Builds the frame facade from its element: every field is copied verbatim
from the document, with no transitive resolution. -/
def Frame.Load (e : Element) : Frame :=
  { name := e.GetAttr "name"
    attachedTo := e.GetAttr "attached_to"
    poseRelativeTo := (e.GetElement "pose").GetAttr "relative_to"
    rawPose := (e.GetElement "pose").GetPose }

/-- Name accessor of the frame facade. -/
def Frame.Name (f : Frame) : String := f.name

/-- Raw one-hop `attached_to` accessor of the frame facade. -/
def Frame.AttachedTo (f : Frame) : String := f.attachedTo

/-- Raw one-hop `relative_to` accessor of the frame facade. -/
def Frame.PoseRelativeTo (f : Frame) : String := f.poseRelativeTo

/-- Modelled from the spec: the read-only `sdf::Link` facade. -/
structure Link where
  name : String
  poseRelativeTo : String
  rawPose : RawPose

/-- Builds the link facade from its element. -/
def Link.Load (e : Element) : Link :=
  { name := e.GetAttr "name"
    poseRelativeTo := (e.GetElement "pose").GetAttr "relative_to"
    rawPose := (e.GetElement "pose").GetPose }

/-- Modelled from the spec: the read-only `sdf::Joint` facade. -/
structure Joint where
  name : String
  poseRelativeTo : String
  rawPose : RawPose

/-- Builds the joint facade from its element. -/
def Joint.Load (e : Element) : Joint :=
  { name := e.GetAttr "name"
    poseRelativeTo := (e.GetElement "pose").GetAttr "relative_to"
    rawPose := (e.GetElement "pose").GetPose }

/-- Modelled from the spec: the read-only `sdf::Model` facade, owning its
links, joints and frames in document order (spec section 4.6: the name index
is insertion-ordered, index order is document order). -/
structure Model where
  name : String
  canonicalLink : String
  poseRelativeTo : String
  rawPose : RawPose
  links : List Link
  joints : List Joint
  frames : List Frame

/-- Builds the model facade from its element. -/
def Model.Load (e : Element) : Model :=
  { name := e.GetAttr "name"
    canonicalLink := e.GetAttr "canonical_link"
    poseRelativeTo := (e.GetElement "pose").GetAttr "relative_to"
    rawPose := (e.GetElement "pose").GetPose
    links := (e.GetElements "link").map Link.Load
    joints := (e.GetElements "joint").map Joint.Load
    frames := (e.GetElements "frame").map Frame.Load }

/-- Name accessor of the model facade. -/
def Model.Name (m : Model) : String := m.name

/-- Raw pose of the model element, as stored at load time; pinned by the
tests to be the document pose, identity when the pose element is absent. -/
def Model.Pose (m : Model) : RawPose := m.rawPose

/-- Raw one-hop `relative_to` string of the model's pose element. -/
def Model.PoseRelativeTo (m : Model) : String := m.poseRelativeTo

/-- Raw `canonical_link` attribute (empty when unspecified). -/
def Model.CanonicalLinkName (m : Model) : String := m.canonicalLink

/-- Number of links of the model. -/
def Model.LinkCount (m : Model) : Nat := m.links.length

/-- Indexed link lookup; `none` models the null pointer returned for an
out-of-range index. -/
def Model.LinkByIndex (m : Model) (i : Nat) : Option Link := m.links[i]?

/-- Link lookup by name. -/
def Model.LinkByName (m : Model) (n : String) : Option Link :=
  m.links.find? (fun l => l.name == n)

/-- Whether a link with the given name exists. -/
def Model.LinkNameExists (m : Model) (n : String) : Bool :=
  (m.LinkByName n).isSome

/-- Number of joints of the model. -/
def Model.JointCount (m : Model) : Nat := m.joints.length

/-- Indexed joint lookup; `none` models the null pointer returned for an
out-of-range index. -/
def Model.JointByIndex (m : Model) (i : Nat) : Option Joint := m.joints[i]?

/-- Joint lookup by name. -/
def Model.JointByName (m : Model) (n : String) : Option Joint :=
  m.joints.find? (fun j => j.name == n)

/-- Whether a joint with the given name exists. -/
def Model.JointNameExists (m : Model) (n : String) : Bool :=
  (m.JointByName n).isSome

/-- Number of frames of the model. -/
def Model.FrameCount (m : Model) : Nat := m.frames.length

/-- Indexed frame lookup; `none` models the null pointer returned for an
out-of-range index. -/
def Model.FrameByIndex (m : Model) (i : Nat) : Option Frame := m.frames[i]?

/-- Frame lookup by name. -/
def Model.FrameByName (m : Model) (n : String) : Option Frame :=
  m.frames.find? (fun f => f.name == n)

/-- Whether a frame with the given name exists. -/
def Model.FrameNameExists (m : Model) (n : String) : Bool :=
  (m.FrameByName n).isSome

/-- Modelled from the spec: the read-only `sdf::World` facade. -/
structure World where
  name : String
  models : List Model
  frames : List Frame

/-- Builds the world facade from its element. -/
def World.Load (e : Element) : World :=
  { name := e.GetAttr "name"
    models := (e.GetElements "model").map Model.Load
    frames := (e.GetElements "frame").map Frame.Load }

/-- Name accessor of the world facade. -/
def World.Name (w : World) : String := w.name

/-- Number of models of the world. -/
def World.ModelCount (w : World) : Nat := w.models.length

/-- Indexed model lookup; `none` models the null pointer returned for an
out-of-range index. -/
def World.ModelByIndex (w : World) (i : Nat) : Option Model := w.models[i]?

/-- Model lookup by name. -/
def World.ModelByName (w : World) (n : String) : Option Model :=
  w.models.find? (fun m => m.name == n)

/-- Whether a model with the given name exists. -/
def World.ModelNameExists (w : World) (n : String) : Bool :=
  (w.ModelByName n).isSome

/-- Number of frames of the world. -/
def World.FrameCount (w : World) : Nat := w.frames.length

/-- Indexed frame lookup; `none` models the null pointer returned for an
out-of-range index. -/
def World.FrameByIndex (w : World) (i : Nat) : Option Frame := w.frames[i]?

/-- Frame lookup by name. -/
def World.FrameByName (w : World) (n : String) : Option Frame :=
  w.frames.find? (fun f => f.name == n)

/-- Whether a frame with the given name exists. -/
def World.FrameNameExists (w : World) (n : String) : Bool :=
  (w.FrameByName n).isSome

/-- Modelled from the spec: the `sdf::Root` facade holding the document's
top-level models and worlds. -/
structure Root where
  models : List Model
  worlds : List World

/-- Modelled from the spec: the load entry point (`Root::Load`), absent from
`src/`, which returns the facade tree together with an error list (spec
section 6: empty list means success).  Its observable error behavior is
pinned by the integration tests: every `Root::Load` call in
`src/test/integration/frame.cc` asserts that the returned error list is
empty — including the loads of `model_frame_invalid_attached_to.sdf`,
`world_frame_invalid_attached_to.sdf`, `model_invalid_frame_relative_to.sdf`
and `world_frame_invalid_relative_to.sdf`, whose frames carry cyclic or
dangling references (lines 403, 564, 643 and 806).  This snapshot therefore
performs no frame-graph validation at load time, and the model returns no
errors for a structurally well-formed document. -/
def Root.Load (sdfElem : Element) : Root × List SdfError :=
  ({ models := (sdfElem.GetElements "model").map Model.Load
     worlds := (sdfElem.GetElements "world").map World.Load }, [])

/-- Indexed model lookup on the root. -/
def Root.ModelByIndex (r : Root) (i : Nat) : Option Model := r.models[i]?

/-- Indexed world lookup on the root. -/
def Root.WorldByIndex (r : Root) (i : Nat) : Option World := r.worlds[i]?

/-- The inline document of the `Frame.ModelFrame` test (frame.cc lines
42-51): model `my_model` with frame `mframe` posed `1 1 0 0 0 0` relative to
`/world`, the model itself posed `1 0 0 0 0 0` relative to `mframe`, and a
link `link`. -/
def modelFrameDoc : Element :=
  .mk "sdf" [("version", "1.7")] ""
    [.mk "model" [("name", "my_model")] ""
      [.mk "frame" [("name", "mframe")] ""
        [.mk "pose" [("relative_to", "/world")] "1 1 0 0 0 0" []],
       .mk "pose" [("relative_to", "mframe")] "1 0 0 0 0 0" [],
       .mk "link" [("name", "link")] "" []]]

/-- The inline document of the `Frame.FrameDefaultPose` test (frame.cc lines
100-106): model `my_model` with an empty frame `mframe` (no pose child) and a
link `link`. -/
def frameDefaultPoseDoc : Element :=
  .mk "sdf" [("version", "1.7")] ""
    [.mk "model" [("name", "my_model")] ""
      [.mk "frame" [("name", "mframe")] "" [],
       .mk "link" [("name", "link")] "" []]]

/-- The inline document of the `Frame.NoFrame` test (frame.cc lines 146-152):
model `my_model` with a single link and no frame element. -/
def noFrameDoc : Element :=
  .mk "sdf" [("version", "1.7")] ""
    [.mk "model" [("name", "my_model")] ""
      [.mk "link" [("name", "link")] "" []]]

/-- Reconstruction of `test/sdf/model_frame_attached_to.sdf` (the file is not
part of the snapshot) from the assertions of
`DOMFrame.LoadModelFramesAttachedTo` (frame.cc lines 345-392): model with one
link `L` and frames `F00` (no `attached_to`), `F0` (explicitly empty
`attached_to`), `F1` (`attached_to="L"`), `F2` (`attached_to="F1"`), all
without a `relative_to`. -/
def modelFrameAttachedToSdf : Element :=
  .mk "sdf" [("version", "1.7")] ""
    [.mk "model" [("name", "model_frame_attached_to")] ""
      [.mk "frame" [("name", "F00")] "" [],
       .mk "frame" [("name", "F0"), ("attached_to", "")] "" [],
       .mk "frame" [("name", "F1"), ("attached_to", "L")] "" [],
       .mk "frame" [("name", "F2"), ("attached_to", "F1")] "" [],
       .mk "link" [("name", "L")] "" []]]

/-- Reconstruction of `test/sdf/model_frame_invalid_attached_to.sdf` from the
assertions of `DOMFrame.LoadModelFramesInvalidAttachedTo` (frame.cc lines
395-442): frames `F1` (`attached_to="L"`), `F2` (`attached_to="F1"`), `F3`
(`attached_to="A"` where no sibling `A` exists) and `F4` (`attached_to="F4"`,
a self-cycle), plus link `L`. -/
def modelFrameInvalidAttachedToSdf : Element :=
  .mk "sdf" [("version", "1.7")] ""
    [.mk "model" [("name", "model_frame_invalid_attached_to")] ""
      [.mk "frame" [("name", "F1"), ("attached_to", "L")] "" [],
       .mk "frame" [("name", "F2"), ("attached_to", "F1")] "" [],
       .mk "frame" [("name", "F3"), ("attached_to", "A")] "" [],
       .mk "frame" [("name", "F4"), ("attached_to", "F4")] "" [],
       .mk "link" [("name", "L")] "" []]]

/-- Reconstruction of `test/sdf/world_frame_invalid_attached_to.sdf` from the
assertions of `DOMFrame.LoadWorldFramesInvalidAttachedTo` (frame.cc lines
556-582): world with no models and frames `self_cycle`
(`attached_to="self_cycle"`) and `F` (`attached_to="A"` where no sibling `A`
exists). -/
def worldFrameInvalidAttachedToSdf : Element :=
  .mk "sdf" [("version", "1.7")] ""
    [.mk "world" [("name", "world_frame_invalid_attached_to")] ""
      [.mk "frame" [("name", "self_cycle"), ("attached_to", "self_cycle")] "" [],
       .mk "frame" [("name", "F"), ("attached_to", "A")] "" []]]

/-- Reconstruction of `test/sdf/model_invalid_frame_relative_to.sdf` from the
assertions of `DOMFrame.LoadModelFramesInvalidRelativeTo` (frame.cc lines
635-674): link `L` and frames `F` (pose `relative_to="A"` where no sibling
`A` exists) and `cycle` (pose `relative_to="cycle"`, a self-cycle). -/
def modelInvalidFrameRelativeToSdf : Element :=
  .mk "sdf" [("version", "1.7")] ""
    [.mk "model" [("name", "model_invalid_frame_relative_to")] ""
      [.mk "frame" [("name", "F")] ""
        [.mk "pose" [("relative_to", "A")] "" []],
       .mk "frame" [("name", "cycle")] ""
        [.mk "pose" [("relative_to", "cycle")] "" []],
       .mk "link" [("name", "L")] "" []]]

/-- Reconstruction of `test/sdf/world_frame_invalid_relative_to.sdf` from the
assertions of `DOMFrame.LoadWorldFramesInvalidRelativeTo` (frame.cc lines
798-831): models `cycle` (pose `relative_to="cycle"`) and `M` (pose
`relative_to="A"`), frames `self_cycle` (pose `relative_to="self_cycle"`) and
`F` (pose `relative_to="A"`). -/
def worldFrameInvalidRelativeToSdf : Element :=
  .mk "sdf" [("version", "1.7")] ""
    [.mk "world" [("name", "world_frame_invalid_relative_to")] ""
      [.mk "model" [("name", "cycle")] ""
        [.mk "pose" [("relative_to", "cycle")] "" [],
         .mk "link" [("name", "L")] "" []],
       .mk "model" [("name", "M")] ""
        [.mk "pose" [("relative_to", "A")] "" [],
         .mk "link" [("name", "L")] "" []],
       .mk "frame" [("name", "self_cycle")] ""
        [.mk "pose" [("relative_to", "self_cycle")] "" []],
       .mk "frame" [("name", "F")] ""
        [.mk "pose" [("relative_to", "A")] "" []]]]

example :
    ((Root.Load modelFrameAttachedToSdf).1.ModelByIndex 0).map
      (fun m => m.FrameCount) = some 4 := by decide
example :
    ((Root.Load modelFrameInvalidAttachedToSdf).1.ModelByIndex 0).map
      (fun m => (m.FrameByName "F4").map Frame.AttachedTo) = some (some "F4") := by
  decide

/-- Translation vector of a rigid transform, with exact rational entries. -/
structure Vec3 where
  x : ℚ
  y : ℚ
  z : ℚ
deriving DecidableEq

/-- Componentwise vector addition. -/
def Vec3.add (a b : Vec3) : Vec3 := ⟨a.x + b.x, a.y + b.y, a.z + b.z⟩

/-- Zero vector. -/
def Vec3.zero : Vec3 := ⟨0, 0, 0⟩

/-- Rotation part of a rigid transform, represented as a quaternion with
exact rational components (ignition `Quaterniond` layout `w x y z`). -/
structure Quat where
  w : ℚ
  x : ℚ
  y : ℚ
  z : ℚ
deriving DecidableEq

/-- Identity rotation. -/
def Quat.one : Quat := ⟨1, 0, 0, 0⟩

/-- Hamilton product of quaternions. -/
def Quat.mul (a b : Quat) : Quat :=
  ⟨a.w * b.w - a.x * b.x - a.y * b.y - a.z * b.z,
   a.w * b.x + a.x * b.w + a.y * b.z - a.z * b.y,
   a.w * b.y - a.x * b.z + a.y * b.w + a.z * b.x,
   a.w * b.z + a.x * b.y - a.y * b.x + a.z * b.w⟩

/-- Quaternion conjugate. -/
def Quat.conj (q : Quat) : Quat := ⟨q.w, -q.x, -q.y, -q.z⟩

/-- Rotation of a vector by a (unit) quaternion: the vector part of the
sandwich product `q v q*`. -/
def Quat.rotate (q : Quat) (v : Vec3) : Vec3 :=
  let p := Quat.mul (Quat.mul q ⟨0, v.x, v.y, v.z⟩) (Quat.conj q)
  ⟨p.x, p.y, p.z⟩

/-- Modelled from the spec: the pose literal of the graph layer, a rigid
transform (3D translation plus 3D rotation, spec section 2). -/
structure Transform where
  pos : Vec3
  rot : Quat
deriving DecidableEq

/-- Identity transform. -/
def Transform.id : Transform := ⟨Vec3.zero, Quat.one⟩

/-- Pose composition in ignition `Pose3d` operator order: `a.mul b` is the
pose `a` (expressed in the frame of `b`) re-expressed in `b`'s parent, i.e.
in matrix terms the product `T(b) * T(a)`. -/
def Transform.mul (a b : Transform) : Transform :=
  ⟨(b.rot.rotate a.pos).add b.pos, b.rot.mul a.rot⟩

/-- Definition following the spec's words for the pose-composition claim:
"P1 composed with P2 applied in F1's frame", the matrix product
`T(P1) * T(P2)` taking a vector expressed relative to `F2` through `F1` to
the scope root. -/
def composeAppliedIn (p1 p2 : Transform) : Transform :=
  ⟨(p1.rot.rotate p2.pos).add p1.pos, p1.rot.mul p2.rot⟩

theorem Transform.mul_comm_compose (p1 p2 : Transform) :
    Transform.mul p2 p1 = composeAppliedIn p1 p2 := rfl

theorem Transform.id_mul (t : Transform) : Transform.mul Transform.id t = t := by
  cases t with
  | mk pos rot =>
    cases pos with
    | mk px py pz =>
      cases rot with
      | mk qw qx qy qz =>
        show Transform.mk _ _ = _
        simp only [Transform.mul, Transform.id, Quat.rotate, Quat.mul, Quat.conj,
          Quat.one, Vec3.add, Vec3.zero, Transform.mk.injEq, Vec3.mk.injEq,
          Quat.mk.injEq]
        exact ⟨⟨by ring, by ring, by ring⟩, by ring, by ring, by ring, by ring⟩

/-- Vertex kinds of the frame graphs (spec section 3). -/
inductive VertexKind where
  | scopeRoot
  | link
  | joint
  | frame
  | model
  | light
deriving DecidableEq

/-- Modelled from the spec: a graph vertex (spec section 3): a named,
kind-tagged node carrying the raw `attached_to` and `relative_to` strings
(empty means unspecified) and the pose literal of its relative-to edge. -/
structure Vertex where
  name : String
  kind : VertexKind
  attachedTo : String
  relativeTo : String
  pose : Transform
deriving DecidableEq

/-- Modelled from the spec: one scope's vertex set (spec section 3), with the
implicit scope-root vertex injected into the vertex table, the scope-root
name (the default relative-to target) and the default attachment target (the
canonical link, or the scope root when no link exists). -/
structure Scope where
  rootName : String
  defaultAttachedTo : String
  vertices : List Vertex
deriving DecidableEq

/-- Vertex lookup by name within a scope. -/
def Scope.find? (s : Scope) (n : String) : Option Vertex :=
  s.vertices.find? (fun v => v.name == n)

/-- Modelled from the spec: the attached-to edge of a vertex (spec section
4.2): one outgoing edge per `frame` vertex, targeting the raw `attached_to`
string when non-empty and the scope's default attachment target otherwise;
non-frame vertices have no outgoing attached-to edge. -/
def attachedToTarget (s : Scope) (v : Vertex) : Option String :=
  if v.kind = VertexKind.frame then
    some (if v.attachedTo ≠ "" then v.attachedTo else s.defaultAttachedTo)
  else none

/-- Modelled from the spec: the relative-to edge of a vertex (spec section
4.3): every vertex except the scope root has exactly one outgoing edge,
targeting the raw `relative_to` string when non-empty and the scope root
otherwise; the scope-root vertex is the sink and has no outgoing edge. -/
def relativeToTarget (s : Scope) (v : Vertex) : Option String :=
  if v.kind = VertexKind.scopeRoot then none
  else some (if v.relativeTo ≠ "" then v.relativeTo else s.rootName)

/-- Modelled from the spec: the shared graph validator's traversal from one
vertex (spec section 4.4): follow outgoing edges keeping the names on the
current path; revisiting a name on the path (the self-edge being the
degenerate 1-cycle) is a `CycleError` naming the offending edge's source and
the repeated vertex; an edge target absent from the scope's vertex set is a
`DanglingReferenceError` naming the source and the missing target. -/
def validateFrom (s : Scope) (edgeOf : Scope → Vertex → Option String) :
    Nat → Vertex → List String → List SdfError
  | 0, _, _ => []
  | fuel + 1, v, path =>
    match edgeOf s v with
    | none => []
    | some t =>
      if t ∈ v.name :: path then
        [.CycleError v.name t]
      else
        match s.find? t with
        | none => [.DanglingReferenceError v.name t]
        | some w => validateFrom s edgeOf fuel w (v.name :: path)

/-- Modelled from the spec: the exhaustive graph validator (spec section
4.4): a depth-first traversal from every vertex, accumulating all violations
rather than stopping at the first.  A traversal visits pairwise distinct
in-scope names, so the vertex count bounds its depth and no violation is
missed. -/
def validateGraph (s : Scope) (edgeOf : Scope → Vertex → Option String) :
    List SdfError :=
  (s.vertices.map
    (fun v => validateFrom s edgeOf s.vertices.length v [])).flatten

/-- Whether iterating outgoing edges from a vertex reaches the graph's sink
(the vertex with no outgoing edge, which for the relative-to graph is the
scope-root vertex, spec section 3) within the given number of hops. -/
def reachesSinkWithin (s : Scope) (edgeOf : Scope → Vertex → Option String) :
    Nat → Vertex → Bool
  | 0, v => (edgeOf s v).isNone
  | fuel + 1, v =>
    match edgeOf s v with
    | none => true
    | some t =>
      match s.find? t with
      | none => false
      | some w => reachesSinkWithin s edgeOf fuel w

/-- Modelled from the spec: the pose resolver's walk (spec section 4.5):
strictly forward along relative-to edges from the current vertex, stopping
when the current vertex equals the target name, right-multiplying the
accumulated transform by each hop's stored pose literal; a vertex without an
onward edge before the target is reached, an unknown name, or fuel
exhaustion is an `UnreachableTargetError`. -/
def ResolvePoseAux (s : Scope) (toName : String) :
    Nat → String → Transform → Except SdfError Transform
  | 0, cur, _ => .error (.UnreachableTargetError cur toName)
  | fuel + 1, cur, acc =>
    if cur = toName then .ok acc
    else
      match s.find? cur with
      | none => .error (.UnreachableTargetError cur toName)
      | some v =>
        match relativeToTarget s v with
        | none => .error (.UnreachableTargetError cur toName)
        | some t => ResolvePoseAux s toName fuel t (acc.mul v.pose)

/-- Modelled from the spec: `ResolvePose(graph, fromName, toName)` (spec
section 4.5), with a hop bound of the vertex count as the defensive
invariant check the spec prescribes. -/
def ResolvePose (s : Scope) (fromName toName : String) :
    Except SdfError Transform :=
  ResolvePoseAux s toName (s.vertices.length + 1) fromName Transform.id

/-- Modelled from the spec: the default-target convenience form resolving to
the scope root (spec section 4.5). -/
def ResolvePoseToRoot (s : Scope) (fromName : String) :
    Except SdfError Transform :=
  ResolvePose s fromName s.rootName

/-- Graph vertex of a loaded link (spec section 4.1 enumeration). -/
def Link.vertex (l : Link) : Vertex :=
  ⟨l.name, .link, "", l.poseRelativeTo, Transform.id⟩

/-- Graph vertex of a loaded joint. -/
def Joint.vertex (j : Joint) : Vertex :=
  ⟨j.name, .joint, "", j.poseRelativeTo, Transform.id⟩

/-- Graph vertex of a loaded frame, carrying its raw `attached_to` and
`relative_to` strings. -/
def Frame.vertex (f : Frame) : Vertex :=
  ⟨f.name, .frame, f.attachedTo, f.poseRelativeTo, Transform.id⟩

/-- Modelled from the spec: the scope a model element introduces (spec
sections 3 and 4.1): the implicit `__model__` root vertex injected into the
vertex table, followed by the model's links, joints and frames in document
order; the default attachment target is the canonical link (the
`canonical_link` override when present, else the first link in document
order, else the scope root).  Edge labels are set to the identity transform:
the graph validator inspects only names and edge targets, and the claims
resolved through this extraction concern validation only (pose resolution
is settled directly at the graph layer, where the poses are explicit). -/
def Model.scope (m : Model) : Scope :=
  { rootName := "__model__"
    defaultAttachedTo :=
      if m.canonicalLink ≠ "" then m.canonicalLink
      else
        match m.links.head? with
        | some l => l.name
        | none => "__model__"
    vertices :=
      ⟨"__model__", .scopeRoot, "", "", Transform.id⟩ ::
        (m.links.map Link.vertex ++ m.joints.map Joint.vertex ++
          m.frames.map Frame.vertex) }

/-- Clean validator traversals certify bounded reachability of the sink: if
the traversal from `v` with the names of `path` already visited reports no
error, then following edges from `v` reaches the sink within the remaining
budget.  The fuel bound is maintained by the pigeonhole argument: the
visited names are pairwise distinct names of the scope. -/
theorem validateFrom_clean_reaches (s : Scope)
    (edgeOf : Scope → Vertex → Option String) :
    ∀ (fuel : Nat) (v : Vertex) (path : List String),
      validateFrom s edgeOf fuel v path = [] →
      (v.name :: path).Nodup →
      (∀ n ∈ v.name :: path, n ∈ s.vertices.map Vertex.name) →
      s.vertices.length - path.length ≤ fuel →
      reachesSinkWithin s edgeOf fuel v = true := by
  intro fuel
  induction fuel with
  | zero =>
    intro v path _ hnd hsub hlen
    exfalso
    have hlen2 : (v.name :: path).length ≤ (s.vertices.map Vertex.name).length :=
      (List.subperm_of_subset hnd (fun a ha => hsub a ha)).length_le
    simp only [List.length_cons, List.length_map] at hlen2
    omega
  | succ fuel ih =>
    intro v path hval hnd hsub hlen
    cases hedge : edgeOf s v with
    | none => simp [reachesSinkWithin, hedge]
    | some t =>
      simp only [validateFrom, hedge] at hval
      by_cases hmem : t ∈ v.name :: path
      · rw [if_pos hmem] at hval
        exact absurd hval (by simp)
      · rw [if_neg hmem] at hval
        cases hfind : s.find? t with
        | none =>
          simp only [hfind] at hval
          exact absurd hval (by simp)
        | some w =>
          simp only [hfind] at hval
          have hw : w.name = t := by
            have h := List.find?_some hfind
            simpa using h
          have hwmem : w ∈ s.vertices := List.mem_of_find?_eq_some hfind
          have hnd' : (w.name :: v.name :: path).Nodup := by
            rw [hw]
            exact List.nodup_cons.mpr ⟨hmem, hnd⟩
          have hsub' : ∀ n ∈ w.name :: v.name :: path,
              n ∈ s.vertices.map Vertex.name := by
            intro n hn
            rcases List.mem_cons.mp hn with h | h
            · exact h ▸ List.mem_map.mpr ⟨w, hwmem, rfl⟩
            · exact hsub n h
          have hlen' : s.vertices.length - (v.name :: path).length ≤ fuel := by
            simp only [List.length_cons] at hlen ⊢
            omega
          have hreach := ih w (v.name :: path) hval hnd' hsub' hlen'
          simp [reachesSinkWithin, hedge, hfind, hreach]

/-- A scope whose graph the validator accepts has every vertex reaching the
sink within `VertexCount` hops. -/
theorem validateGraph_clean_reaches (s : Scope)
    (edgeOf : Scope → Vertex → Option String)
    (hval : validateGraph s edgeOf = [])
    (v : Vertex) (hv : v ∈ s.vertices) :
    reachesSinkWithin s edgeOf s.vertices.length v = true := by
  have hcomp : validateFrom s edgeOf s.vertices.length v [] = [] :=
    List.flatten_eq_nil_iff.mp hval _ (List.mem_map.mpr ⟨v, hv, rfl⟩)
  refine validateFrom_clean_reaches s edgeOf s.vertices.length v [] hcomp
    (List.nodup_cons.mpr ⟨by simp, List.nodup_nil⟩) ?_ (by simp)
  intro n hn
  rcases List.mem_cons.mp hn with h | h
  · exact h ▸ List.mem_map.mpr ⟨v, hv, rfl⟩
  · simp at h

/-- Default-constructed model facade (the facade of an absent model
element). -/
def defaultModel : Model := Model.Load (defaultElement "model")

/-- The model facade obtained from `model_frame_attached_to.sdf`. -/
def attachedToModel : Model :=
  ((Root.Load modelFrameAttachedToSdf).1.models).headD defaultModel

/-- The model facade obtained from `model_frame_invalid_attached_to.sdf`. -/
def invalidAttachedToModel : Model :=
  ((Root.Load modelFrameInvalidAttachedToSdf).1.models).headD defaultModel

/-- The model facade obtained from `model_invalid_frame_relative_to.sdf`. -/
def invalidRelativeToModel : Model :=
  ((Root.Load modelInvalidFrameRelativeToSdf).1.models).headD defaultModel

/-- The world facade obtained from `world_frame_invalid_relative_to.sdf`. -/
def invalidRelativeToWorld : World :=
  ((Root.Load worldFrameInvalidRelativeToSdf).1.worlds).headD
    (World.Load (defaultElement "world"))

/-- Indexed lookup is `some` exactly on indices below the list length. -/
theorem getElem?_isSome_iff {α : Type} (l : List α) (i : Nat) :
    (l[i]?).isSome = true ↔ i < l.length := by
  rw [Option.isSome_iff_exists]
  constructor
  · rintro ⟨a, ha⟩
    exact (List.getElem?_eq_some.mp ha).1
  · intro h
    exact ⟨l[i], List.getElem?_eq_getElem h⟩

/-- An element without the attribute reads it as the empty string. -/
theorem GetAttr_of_not_hasAttribute (e : Element) (k : String)
    (h : e.HasAttribute k = false) : e.GetAttr k = "" := by
  unfold Element.HasAttribute at h
  unfold Element.GetAttr
  cases hf : e.attrs.find? (fun a => a.1 == k) with
  | none => rfl
  | some a => rw [hf] at h; simp at h

/-- An element without the child yields the default-constructed element. -/
theorem GetElement_of_not_hasElement (e : Element) (t : String)
    (h : e.HasElement t = false) : e.GetElement t = defaultElement t := by
  unfold Element.HasElement at h
  unfold Element.GetElement
  cases hf : e.children.find? (fun c => c.tag == t) with
  | none => rfl
  | some c => rw [hf] at h; simp at h

/-- An element none of whose children carries the tag does not have the
child. -/
theorem HasElement_eq_false (e : Element) (t : String)
    (h : ∀ c ∈ e.children, c.tag ≠ t) : e.HasElement t = false := by
  unfold Element.HasElement
  rw [List.find?_eq_none.mpr]
  · rfl
  · intro c hc
    simp [h c hc]

/-- Transitive bottoming-out of the attached-to chain (what `AttachedTo()`
would return if it resolved transitively — it does not; defined only to
contrast with the raw one-hop accessor). -/
def attachedToBottom (s : Scope) : Nat → String → String
  | 0, cur => cur
  | fuel + 1, cur =>
    match s.find? cur with
    | none => cur
    | some v =>
      match attachedToTarget s v with
      | none => cur
      | some t => attachedToBottom s fuel t

/-- Hand-built scope whose relative-to graph is a 2-cycle `A -> B -> A`. -/
def twoCycleScope : Scope :=
  { rootName := "__model__"
    defaultAttachedTo := "__model__"
    vertices :=
      [⟨"__model__", .scopeRoot, "", "", Transform.id⟩,
       ⟨"A", .frame, "", "B", Transform.id⟩,
       ⟨"B", .frame, "", "A", Transform.id⟩] }

/-- Small valid scope (root, link `L`, frame `F` posed relative to `L`). -/
def demoScope : Scope :=
  { rootName := "__model__"
    defaultAttachedTo := "L"
    vertices :=
      [⟨"__model__", .scopeRoot, "", "", Transform.id⟩,
       ⟨"L", .link, "", "", Transform.id⟩,
       ⟨"F", .frame, "", "L", Transform.id⟩] }

/-- Modelled from the spec: the two-frame scope of the pose-composition
property (spec section 8): frame `F1` with empty `relative_to` carrying pose
`p1`, frame `F2` with `relative_to="F1"` carrying pose `p2`. -/
def composeScope (p1 p2 : Transform) : Scope :=
  { rootName := "__model__"
    defaultAttachedTo := "__model__"
    vertices :=
      [⟨"__model__", .scopeRoot, "", "", Transform.id⟩,
       ⟨"F1", .frame, "", "", p1⟩,
       ⟨"F2", .frame, "", "F1", p2⟩] }

/-- C1 (counterexample): loading the document whose frame `F4` is attached to
itself and whose frame `F3` is attached to the nonexistent sibling `A` does
not produce a `CycleError` — the load entry point returns an empty error
list even though both violations are present in the loaded facades. -/
theorem C1_counterexample :
    SdfError.CycleError "F4" "F4" ∉ (Root.Load modelFrameInvalidAttachedToSdf).2 ∧
    (Root.Load modelFrameInvalidAttachedToSdf).2 = [] ∧
    (invalidAttachedToModel.FrameByName "F4").map Frame.AttachedTo = some "F4" ∧
    (invalidAttachedToModel.FrameByName "F3").map Frame.AttachedTo = some "A" ∧
    invalidAttachedToModel.FrameNameExists "A" = false ∧
    invalidAttachedToModel.LinkNameExists "A" = false ∧
    invalidAttachedToModel.JointNameExists "A" = false := by
  exact ⟨by decide, by decide, by decide, by decide, by decide, by decide,
    by decide⟩

/-- C1 (amended): in this snapshot the load entry point reports no error for
a frame attached to itself or to a nonexistent sibling: the returned error
list is empty for both invalid attached-to documents, the documents remain
fully queryable, and the frame facades preserve the offending raw
`attached_to` strings verbatim. -/
theorem C1_load_reports_no_errors :
    (Root.Load modelFrameInvalidAttachedToSdf).2 = [] ∧
    ((Root.Load modelFrameInvalidAttachedToSdf).1.ModelByIndex 0).map
      Model.Name = some "model_frame_invalid_attached_to" ∧
    invalidAttachedToModel.FrameCount = 4 ∧
    (invalidAttachedToModel.FrameByName "F1").map Frame.AttachedTo = some "L" ∧
    (invalidAttachedToModel.FrameByName "F2").map Frame.AttachedTo = some "F1" ∧
    (invalidAttachedToModel.FrameByName "F3").map Frame.AttachedTo = some "A" ∧
    (invalidAttachedToModel.FrameByName "F4").map Frame.AttachedTo = some "F4" ∧
    (Root.Load worldFrameInvalidAttachedToSdf).2 = [] ∧
    ((Root.Load worldFrameInvalidAttachedToSdf).1.worlds.headD
        (World.Load (defaultElement "world"))).FrameCount = 2 ∧
    (((Root.Load worldFrameInvalidAttachedToSdf).1.worlds.headD
        (World.Load (defaultElement "world"))).FrameByName "self_cycle").map
      Frame.AttachedTo = some "self_cycle" ∧
    (((Root.Load worldFrameInvalidAttachedToSdf).1.worlds.headD
        (World.Load (defaultElement "world"))).FrameByName "F").map
      Frame.AttachedTo = some "A" := by
  exact ⟨by decide, by decide, by decide, by decide, by decide, by decide,
    by decide, by decide, by decide, by decide, by decide⟩

/-- C2 (counterexample): loading the document whose frame `F` declares
`relative_to="A"` with no sibling `A` yields no `DanglingReferenceError` —
the load entry point's error list is empty while the facade still reports
the dangling name. -/
theorem C2_counterexample :
    SdfError.DanglingReferenceError "F" "A" ∉
      (Root.Load modelInvalidFrameRelativeToSdf).2 ∧
    (Root.Load modelInvalidFrameRelativeToSdf).2 = [] ∧
    (invalidRelativeToModel.FrameByName "F").map Frame.PoseRelativeTo =
      some "A" ∧
    invalidRelativeToModel.FrameNameExists "A" = false ∧
    invalidRelativeToModel.LinkNameExists "A" = false ∧
    invalidRelativeToModel.JointNameExists "A" = false := by
  exact ⟨by decide, by decide, by decide, by decide, by decide, by decide⟩

/-- C2 (amended): a dangling `attached_to`/`relative_to` name produces no
error from the load entry point in this snapshot; the facades preserve and
report the exact missing name for every dangling reference of both invalid
relative-to documents. -/
theorem C2_load_preserves_dangling_names :
    (Root.Load modelInvalidFrameRelativeToSdf).2 = [] ∧
    (invalidRelativeToModel.FrameByName "F").map Frame.PoseRelativeTo =
      some "A" ∧
    (invalidRelativeToModel.FrameByName "cycle").map Frame.PoseRelativeTo =
      some "cycle" ∧
    (Root.Load worldFrameInvalidRelativeToSdf).2 = [] ∧
    (invalidRelativeToWorld.ModelByName "M").map Model.PoseRelativeTo =
      some "A" ∧
    (invalidRelativeToWorld.ModelByName "cycle").map Model.PoseRelativeTo =
      some "cycle" ∧
    (invalidRelativeToWorld.FrameByName "F").map Frame.PoseRelativeTo =
      some "A" := by
  exact ⟨by decide, by decide, by decide, by decide, by decide, by decide,
    by decide⟩

/-- C3 (counterexample): the document whose frame `self_cycle` declares
`relative_to="self_cycle"` (a self-cycle in the relative-to graph) is not
rejected by the load entry point: no `CycleError` is reported and the error
list is empty, while the facade still carries the self-referential name. -/
theorem C3_counterexample :
    SdfError.CycleError "self_cycle" "self_cycle" ∉
      (Root.Load worldFrameInvalidRelativeToSdf).2 ∧
    (Root.Load worldFrameInvalidRelativeToSdf).2 = [] ∧
    (invalidRelativeToWorld.FrameByName "self_cycle").map Frame.PoseRelativeTo =
      some "self_cycle" := by
  exact ⟨by decide, by decide, by decide⟩

/-- C3 (amended): (a) in every scope whose relative-to graph the validator
accepts with no errors, iterating relative-to edges from any vertex reaches
the scope-root sink within `VertexCount` hops; (b) a document constructing a
self-cycle or 2-cycle is not rejected by the load entry point of this
snapshot (its error list is empty), although the validator, run on such a
graph, does report the `CycleError`. -/
theorem C3_validated_scopes_reach_root :
    (∀ s : Scope, validateGraph s relativeToTarget = [] →
      ∀ v ∈ s.vertices,
        reachesSinkWithin s relativeToTarget s.vertices.length v = true) ∧
    (Root.Load worldFrameInvalidRelativeToSdf).2 = [] ∧
    SdfError.CycleError "cycle" "cycle" ∈
      validateGraph (Model.scope invalidRelativeToModel) relativeToTarget ∧
    SdfError.CycleError "B" "A" ∈
      validateGraph twoCycleScope relativeToTarget := by
  refine ⟨?_, by decide, by decide, by decide⟩
  intro s hval v hv
  exact validateGraph_clean_reaches s relativeToTarget hval v hv

/-- C3 (witness): the bounded-reachability part applied to a concrete
validated scope and its frame vertex. -/
theorem C3_witness :
    validateGraph demoScope relativeToTarget = [] ∧
    reachesSinkWithin demoScope relativeToTarget demoScope.vertices.length
      ⟨"F", .frame, "", "L", Transform.id⟩ = true :=
  ⟨by decide,
   C3_validated_scopes_reach_root.1 demoScope (by decide)
     ⟨"F", .frame, "", "L", Transform.id⟩ (by decide)⟩

/-- C4: loading the `Frame.ModelFrame` document succeeds with an empty error
list, and afterwards the model facade reports pose `(1,0,0,0,0,0)` relative
to `mframe`, while the frame `mframe` carries pose `(1,1,0,0,0,0)` relative
to `/world`. -/
theorem C4_model_frame_scenario :
    (Root.Load modelFrameDoc).2 = [] ∧
    ((Root.Load modelFrameDoc).1.ModelByIndex 0).map Model.Name =
      some "my_model" ∧
    ((Root.Load modelFrameDoc).1.ModelByIndex 0).map Model.Pose =
      some ⟨1, 0, 0, 0, 0, 0⟩ ∧
    ((Root.Load modelFrameDoc).1.ModelByIndex 0).map Model.PoseRelativeTo =
      some "mframe" ∧
    ((Root.Load modelFrameDoc).1.ModelByIndex 0).map
      (fun m => (m.FrameByName "mframe").map (fun f => f.rawPose)) =
      some (some ⟨1, 1, 0, 0, 0, 0⟩) ∧
    ((Root.Load modelFrameDoc).1.ModelByIndex 0).map
      (fun m => (m.FrameByName "mframe").map Frame.PoseRelativeTo) =
      some (some "/world") := by
  exact ⟨by decide, by decide, by decide, by decide, by decide, by decide⟩

/-- C5: the frame facade's `AttachedTo()` and `PoseRelativeTo()` are exactly
the raw one-hop strings of the document — never a transitive resolution (the
frame `F2` attached to `F1`, itself attached to link `L`, reports `F1`, not
`L`) — and read as the empty string exactly when the attribute was
unspecified (absent, or empty per the empty-means-unspecified convention). -/
theorem C5_raw_one_hop_strings :
    (∀ e : Element,
      (Frame.Load e).AttachedTo = e.GetAttr "attached_to" ∧
      (Frame.Load e).PoseRelativeTo = (e.GetElement "pose").GetAttr "relative_to" ∧
      ((Frame.Load e).AttachedTo = "" ↔
        e.HasAttribute "attached_to" = false ∨ e.GetAttr "attached_to" = "")) ∧
    (attachedToModel.FrameByName "F2").map Frame.AttachedTo = some "F1" ∧
    attachedToBottom (Model.scope attachedToModel) 6 "F2" = "L" ∧
    (attachedToModel.FrameByName "F1").map Frame.AttachedTo = some "L" ∧
    (attachedToModel.FrameByName "F00").map Frame.AttachedTo = some "" ∧
    (attachedToModel.FrameByName "F0").map Frame.AttachedTo = some "" := by
  refine ⟨?_, by decide, by decide, by decide, by decide, by decide⟩
  intro e
  refine ⟨rfl, rfl, ?_⟩
  constructor
  · intro h
    exact Or.inr h
  · rintro (h | h)
    · exact GetAttr_of_not_hasAttribute e _ h
    · exact h

/-- C6: a frame element with no pose child has `HasElement("pose")` false,
yet its pose reads as the identity transform and its `relative_to` attribute
is present and reads as the empty string. -/
theorem C6_frame_without_pose_defaults (e : Element)
    (h : ∀ c ∈ e.children, c.tag ≠ "pose") :
    e.HasElement "pose" = false ∧
    ((e.GetElement "pose").GetAttr "relative_to" = "" ∧
      (e.GetElement "pose").HasAttribute "relative_to" = true ∧
      (e.GetElement "pose").GetPose = RawPose.identity) := by
  have hhe := HasElement_eq_false e "pose" h
  have hge := GetElement_of_not_hasElement e "pose" hhe
  exact ⟨hhe, by rw [hge]; decide, by rw [hge]; decide, by rw [hge]; decide⟩

/-- C6 (witness): the `mframe` element of the `Frame.FrameDefaultPose`
document has no pose child, and its pose defaults accordingly. -/
theorem C6_witness :
    (∀ c ∈ ((frameDefaultPoseDoc.GetElement "model").GetElement
      "frame").children, c.tag ≠ "pose") ∧
    (((frameDefaultPoseDoc.GetElement "model").GetElement
      "frame").HasElement "pose" = false ∧
     ((((frameDefaultPoseDoc.GetElement "model").GetElement
      "frame").GetElement "pose").GetAttr "relative_to" = "" ∧
      (((frameDefaultPoseDoc.GetElement "model").GetElement
      "frame").GetElement "pose").HasAttribute "relative_to" = true ∧
      (((frameDefaultPoseDoc.GetElement "model").GetElement
      "frame").GetElement "pose").GetPose = RawPose.identity)) :=
  ⟨by decide,
   C6_frame_without_pose_defaults
     ((frameDefaultPoseDoc.GetElement "model").GetElement "frame")
     (by decide)⟩

/-- C7 (counterexample): the model facade built from the invalid attached-to
document — a scope on which the validator reports a `CycleError` — answers
the resolved-pose access `Pose()` with the identity pose and no error. -/
theorem C7_counterexample :
    validateGraph (Model.scope invalidAttachedToModel) attachedToTarget ≠ [] ∧
    SdfError.CycleError "F4" "F4" ∈
      validateGraph (Model.scope invalidAttachedToModel) attachedToTarget ∧
    invalidAttachedToModel.Pose = RawPose.identity := by
  exact ⟨by decide, by decide, by decide⟩

/-- C7 (amended): in this snapshot, `Pose()` on a facade returns the stored
raw document pose unconditionally — identity when the pose element is absent
— with no error channel, even when the facade's scope carries references the
validator rejects. -/
theorem C7_pose_access_returns_stored_pose :
    (∀ e : Element, (Model.Load e).Pose = (e.GetElement "pose").GetPose) ∧
    validateGraph (Model.scope invalidRelativeToModel) relativeToTarget ≠ [] ∧
    SdfError.DanglingReferenceError "F" "A" ∈
      validateGraph (Model.scope invalidRelativeToModel) relativeToTarget ∧
    invalidRelativeToModel.Pose = RawPose.identity := by
  exact ⟨fun e => rfl, by decide, by decide, by decide⟩

/-- C8: in the validated two-frame scope — frame `F1` with empty
`relative_to` carrying pose `p1`, frame `F2` with `relative_to="F1"`
carrying pose `p2` — resolving `F2` to the scope root yields exactly `p1`
composed with `p2` applied in `F1`'s frame (the right-multiplied product of
the edge transforms along the path). -/
theorem C8_resolve_pose_composition (p1 p2 : Transform) :
    validateGraph (composeScope p1 p2) relativeToTarget = [] ∧
    ResolvePoseToRoot (composeScope p1 p2) "F2" =
      .ok (composeAppliedIn p1 p2) := by
  constructor
  · rfl
  · have h : ResolvePoseToRoot (composeScope p1 p2) "F2" =
        .ok (Transform.mul (Transform.mul Transform.id p2) p1) := rfl
    rw [h, Transform.id_mul, Transform.mul_comm_compose]

/-- C9: every indexed accessor of the model and world facades returns a
value exactly on indices strictly below the corresponding count; an
out-of-range index yields `none` (the null pointer) rather than failing. -/
theorem C9_indexed_accessors_in_range (e : Element) (i : Nat) :
    (((Model.Load e).FrameByIndex i).isSome = true ↔
      i < (Model.Load e).FrameCount) ∧
    (((Model.Load e).LinkByIndex i).isSome = true ↔
      i < (Model.Load e).LinkCount) ∧
    (((Model.Load e).JointByIndex i).isSome = true ↔
      i < (Model.Load e).JointCount) ∧
    (((World.Load e).ModelByIndex i).isSome = true ↔
      i < (World.Load e).ModelCount) ∧
    (((World.Load e).FrameByIndex i).isSome = true ↔
      i < (World.Load e).FrameCount) :=
  ⟨getElem?_isSome_iff _ _, getElem?_isSome_iff _ _, getElem?_isSome_iff _ _,
   getElem?_isSome_iff _ _, getElem?_isSome_iff _ _⟩

/-- C10: reading a missing child element never fails: `GetElement` returns
the usable default-constructed element, whose `name` attribute reads as the
empty string, whose pose child carries a present `relative_to` attribute
equal to the empty string, and whose pose reads as the identity. -/
theorem C10_missing_child_defaults (e : Element) (t : String)
    (h : e.HasElement t = false) :
    e.GetElement t = defaultElement t ∧
    (e.GetElement t).GetAttr "name" = "" ∧
    ((e.GetElement t).GetElement "pose").HasAttribute "relative_to" = true ∧
    ((e.GetElement t).GetElement "pose").GetAttr "relative_to" = "" ∧
    ((e.GetElement t).GetElement "pose").GetPose = RawPose.identity := by
  have hge := GetElement_of_not_hasElement e t h
  have hpose : (defaultElement t).GetElement "pose" = defaultElement "pose" := rfl
  refine ⟨hge, ?_, ?_, ?_, ?_⟩
  · rw [hge]
    show (defaultElement t).GetAttr "name" = ""
    unfold defaultElement defaultAttrs
    by_cases ht : t = "pose"
    · rw [if_pos ht]
      rfl
    · rw [if_neg ht]
      rfl
  · rw [hge, hpose]
    decide
  · rw [hge, hpose]
    decide
  · rw [hge, hpose]
    decide

/-- C10 (witness): the `Frame.NoFrame` document's model has no frame child,
and reading it yields the defaulted element values. -/
theorem C10_witness :
    (noFrameDoc.GetElement "model").HasElement "frame" = false ∧
    ((noFrameDoc.GetElement "model").GetElement "frame").GetAttr "name" = "" ∧
    (((noFrameDoc.GetElement "model").GetElement "frame").GetElement
      "pose").GetAttr "relative_to" = "" ∧
    (((noFrameDoc.GetElement "model").GetElement "frame").GetElement
      "pose").GetPose = RawPose.identity :=
  ⟨by decide,
   (C10_missing_child_defaults (noFrameDoc.GetElement "model") "frame"
     (by decide)).2.1,
   (C10_missing_child_defaults (noFrameDoc.GetElement "model") "frame"
     (by decide)).2.2.2.1,
   (C10_missing_child_defaults (noFrameDoc.GetElement "model") "frame"
     (by decide)).2.2.2.2⟩
